import Mathlib

/-!
Verification of the CubbyFlow hybrid (MPM) solver core against its
natural-language specification.

The development shallowly embeds the relevant parts of the repository:

* the 2-D dense array container (Includes/Core/Array/Array2.hpp),
* the axis-aligned bounding box (declared in the same header bundle),
* the 2-D MPM solver and its builder
  (Includes/Core/Solver/Hybrid/MPM/MPMSolver2.hpp,
   Sources/Core/Solver/Hybrid/MPM/MPMSolver2.cpp),
* the particle emitter / particle system data pair and the per-step phase
  sequence of the grid fluid solver, whose implementations are not part of
  the excerpt and are therefore modelled from the specification text.

Machine reals are modelled by the rationals; pointer values are modelled by
optional object identifiers.
-/

namespace CubbyFlow

/-! ## 2-D dense array (Array<T, 2>) -/

/-- Modelled from the spec: the bodies of the Array2 member functions live in
Array2-Impl.hpp, which is not part of the excerpt; the model follows the
declarations and their documented contracts in Includes/Core/Array/Array2.hpp.
The 2-D data is kept in a linear backing store, element (i, j) living at
linear position i + width * j. -/
structure Array2 (α : Type) where
  m_size : ℕ × ℕ
  m_data : List α

/-- Width of the array (m_size.x). -/
def Array2.Width {α : Type} (a : Array2 α) : ℕ := a.m_size.1

/-- Height of the array (m_size.y). -/
def Array2.Height {α : Type} (a : Array2 α) : ℕ := a.m_size.2

/-- Well-formedness: the backing store has exactly width * height elements. -/
def Array2.WF {α : Type} (a : Array2 α) : Prop :=
  a.m_data.length = a.m_size.1 * a.m_size.2

/-- Linear-index accessor At(i): the i-th element of the backing store.
Out-of-range access is undefined in the source; the model returns the
default element there. -/
def Array2.At1 {α : Type} [Inhabited α] (a : Array2 α) (i : ℕ) : α :=
  a.m_data.getD i default

/-- Structured accessor At(i, j): reads the backing store at i + width * j,
as documented at Array2.hpp lines 133-161. -/
def Array2.At2 {α : Type} [Inhabited α] (a : Array2 α) (i j : ℕ) : α :=
  a.m_data.getD (i + a.m_size.1 * j) default

/-- Structured call operator, operator()(i, j): same mapping as At(i, j). -/
def Array2.call2 {α : Type} [Inhabited α] (a : Array2 α) (i j : ℕ) : α :=
  a.m_data.getD (i + a.m_size.1 * j) default

/-- Modelled from the spec: the body of Array2::Resize (Array2-Impl.hpp) is
not part of the excerpt; the model follows the declaration contract at
Array2.hpp lines 126-131, which resizes the array to the given size and
fills the NEW elements with the given fill value, so elements inside the
overlap of the old and new extents keep their previous values. -/
def Array2.resize {α : Type} [Inhabited α] (a : Array2 α) (s : ℕ × ℕ) (v : α) :
    Array2 α :=
  ⟨s, (List.range (s.1 * s.2)).map fun k =>
    if k % s.1 < min s.1 a.m_size.1 ∧ k / s.1 < min s.2 a.m_size.2 then
      a.At2 (k % s.1) (k / s.1)
    else v⟩

/-- Row j of the canonical index iteration: (0, j), (1, j), ..., (w-1, j),
the inner loop of the documented nested loop. -/
def ijRow (w j : ℕ) : List (ℕ × ℕ) :=
  (List.range w).map fun i => (i, j)

/-- Modelled from the spec: the body of Array2::ForEachIndex
(Array2-Impl.hpp) is not part of the excerpt; the declaration documentation
(Array2.hpp lines 231-261) fixes the invocation order as the nested loop
with j outer from 0 to height-1 and i inner from 0 to width-1. This list is
the sequence of invoked index pairs. -/
def forEachIndexList (w : ℕ) : ℕ → List (ℕ × ℕ)
  | 0 => []
  | h + 1 => forEachIndexList w h ++ ijRow w h

/-- Invocation sequence of ForEachIndex on a 2-D array. -/
def Array2.ForEachIndexTrace {α : Type} (a : Array2 α) : List (ℕ × ℕ) :=
  forEachIndexList a.m_size.1 a.m_size.2

/-- Modelled from the spec: the body of Array2::ParallelForEachIndex
(Array2-Impl.hpp) is not part of the excerpt; the declaration documentation
(Array2.hpp lines 286-305) states that it invokes the callback for each
index pair with non-deterministic execution order, so the admissible
invocation sequences are exactly the permutations of the canonical
sequence. -/
def Array2.ParallelForEachIndexAdmissible {α : Type} (a : Array2 α)
    (l : List (ℕ × ℕ)) : Prop :=
  l.Perm a.ForEachIndexTrace

/-! ## Per-step phase sequence of the grid and hybrid solvers -/

/-- Phases of one simulation step, covering the grid fluid solver pipeline
and the two hybrid transfer phases. -/
inductive StepPhase where
  | computeExternalForces
  | computeViscosity
  | computeAdvection
  | computePressure
  | applyBoundaryCondition
  | particleToGridScatter
  | gridToParticleGather
deriving DecidableEq

/-- Modelled from the spec: the GridFluidSolver2 step implementation is not
part of the excerpt; section 4.4 fixes the per-step phase order as
ComputeExternalForces, ComputeViscosity (skipped when the viscosity
coefficient is zero), ComputeAdvection, ComputePressure,
ApplyBoundaryCondition. The trace of one step is the list of phases run. -/
def gridFluidSolverStepPhases (viscosityCoefficient : ℚ) : List StepPhase :=
  [StepPhase.computeExternalForces] ++
    (if viscosityCoefficient = 0 then [] else [StepPhase.computeViscosity]) ++
    [StepPhase.computeAdvection, StepPhase.computePressure,
     StepPhase.applyBoundaryCondition]

/-- Modelled from the spec: the MPM step implementation is not part of the
excerpt; section 4.5 brackets the grid step with a particle-to-grid scatter
before it and a grid-to-particle gather after it. -/
def mpmSolverStepPhases (viscosityCoefficient : ℚ) : List StepPhase :=
  StepPhase.particleToGridScatter ::
    (gridFluidSolverStepPhases viscosityCoefficient ++
      [StepPhase.gridToParticleGather])

/-! ## Axis-aligned bounding box -/

/-- Coordinate type for bounding boxes: rationals extended with the plus and
minus infinities that the reset state uses. -/
abbrev BBCoord : Type := WithBot (WithTop ℚ)

/-- Modelled from the spec: the BoundingBox member bodies
(BoundingBox-Impl.hpp) are not part of the excerpt; the model follows the
declarations in the header bundle and the spec invariant in section 3.
A 2-D axis-aligned bounding box is a lower and an upper corner. -/
structure BoundingBox2 where
  lowerCorner : BBCoord × BBCoord
  upperCorner : BBCoord × BBCoord

/-- Modelled from the spec: Reset() produces the canonical empty state with
lowerCorner = +infinity and upperCorner = -infinity. -/
def BoundingBox2.Reset (_b : BoundingBox2) : BoundingBox2 :=
  ⟨(⊤, ⊤), (⊥, ⊥)⟩

/-- Modelled from the spec: Merge takes the componentwise minimum of the
lower corners and the componentwise maximum of the upper corners. -/
def BoundingBox2.Merge (b other : BoundingBox2) : BoundingBox2 :=
  ⟨(min b.lowerCorner.1 other.lowerCorner.1,
    min b.lowerCorner.2 other.lowerCorner.2),
   (max b.upperCorner.1 other.upperCorner.1,
    max b.upperCorner.2 other.upperCorner.2)⟩

/-! ## MPM solver state (MPMSolver2.cpp) -/

/-- State of an MPMSolver2 object: the grid configuration inherited from
GridFluidSolver2 plus the two pointer members m_particles and
m_particleEmitter. Pointers are modelled as optional object identifiers
(none is the null pointer). -/
structure MPMSolver2State where
  resolution : ℕ × ℕ
  gridSpacing : ℚ × ℚ
  gridOrigin : ℚ × ℚ
  m_particles : Option ℕ
  m_particleEmitter : Option ℕ

/-- World state around a solver: the solver object together with the target
binding of every emitter object (SetTarget mutates the emitter the solver
points to, so it lives outside the solver state). -/
structure MPMWorld where
  solver : MPMSolver2State
  emitterTarget : ℕ → Option ℕ

/-- Constructor MPMSolver2(resolution, gridSpacing, gridOrigin): delegates
the grid configuration to GridFluidSolver2 and allocates a fresh
ParticleSystemData2 into m_particles (MPMSolver2.cpp lines 20-25); the
freshly allocated store is modelled by an identifier supplied by the
allocator. m_particleEmitter starts null. -/
def mkMPMSolver2 (resolution : ℕ × ℕ) (gridSpacing gridOrigin : ℚ × ℚ)
    (freshStore : ℕ) : MPMSolver2State :=
  ⟨resolution, gridSpacing, gridOrigin, some freshStore, none⟩

/-- Default constructor MPMSolver2(): delegates to the explicit constructor
with resolution (1, 1), spacing (1, 1), origin (0, 0)
(MPMSolver2.cpp line 15). -/
def mkMPMSolver2Default (freshStore : ℕ) : MPMSolver2State :=
  mkMPMSolver2 (1, 1) (1, 1) (0, 0) freshStore

/-- GetParticleSystemData(): returns the m_particles member. -/
def getParticleSystemData (s : MPMSolver2State) : Option ℕ :=
  s.m_particles

/-- GetParticleEmitter(): returns the m_particleEmitter member. -/
def getParticleEmitter (s : MPMSolver2State) : Option ℕ :=
  s.m_particleEmitter

/-- SetParticleEmitter(newEmitter): stores the emitter pointer, then calls
newEmitter->SetTarget(m_particles) (MPMSolver2.cpp lines 37-41). The call
dereferences newEmitter unconditionally, so a null argument has no defined
result (modelled as none). -/
def setParticleEmitter (w : MPMWorld) (newEmitter : Option ℕ) :
    Option MPMWorld :=
  match newEmitter with
  | none => none
  | some e =>
      some ⟨{ w.solver with m_particleEmitter := some e },
            fun x => if x = e then w.solver.m_particles else w.emitterTarget x⟩

/-! ## MPM solver builder (MPMSolver2.cpp lines 48-58) -/

/-- Modelled from the spec: the GridFluidSolverBuilderBase2 header is not
part of the excerpt; per section 4.5 the builder accumulates resolution,
grid spacing and grid origin before construction. -/
structure MPMSolver2Builder where
  m_resolution : ℕ × ℕ
  m_gridSpacing : ℚ × ℚ
  m_gridOrigin : ℚ × ℚ

/-- Modelled from the spec: GetGridSpacing() reads the accumulated grid
spacing of the builder. -/
def MPMSolver2Builder.GetGridSpacing (b : MPMSolver2Builder) : ℚ × ℚ :=
  b.m_gridSpacing

/-- Builder::Build(): constructs MPMSolver2(m_resolution, GetGridSpacing(),
m_gridOrigin) by value (MPMSolver2.cpp lines 48-51). -/
def MPMSolver2Builder.Build (b : MPMSolver2Builder) (freshStore : ℕ) :
    MPMSolver2State :=
  mkMPMSolver2 b.m_resolution b.GetGridSpacing b.m_gridOrigin freshStore

/-- Builder::MakeShared(): constructs a solver with
MPMSolver2(m_resolution, GetGridSpacing(), m_gridOrigin) and wraps it in a
shared pointer (MPMSolver2.cpp lines 53-58); the model returns the pointee. -/
def MPMSolver2Builder.MakeShared (b : MPMSolver2Builder) (freshStore : ℕ) :
    MPMSolver2State :=
  mkMPMSolver2 b.m_resolution b.GetGridSpacing b.m_gridOrigin freshStore

/-! ## Particle system data and particle emitter -/

/-- Modelled from the spec: the ParticleSystemData2 implementation is not
part of the excerpt; per sections 3 and 4.2 it is a column store with a
position array, a velocity array and named extra attribute arrays, all of
identical length. -/
structure ParticleSystemData2 where
  positions : List (ℚ × ℚ)
  velocities : List (ℚ × ℚ)
  extraScalarData : List (String × List ℚ)

/-- Number of particles: the length of the position array. -/
def ParticleSystemData2.NumberOfParticles (d : ParticleSystemData2) : ℕ :=
  d.positions.length

/-- Modelled from the spec: AddParticles(n) appends n default-initialized
particles, extending every attribute array by n (section 4.2). -/
def ParticleSystemData2.AddParticles (d : ParticleSystemData2) (n : ℕ) :
    ParticleSystemData2 :=
  ⟨d.positions ++ List.replicate n (0, 0),
   d.velocities ++ List.replicate n (0, 0),
   d.extraScalarData.map fun a => (a.1, a.2 ++ List.replicate n 0)⟩

/-- Modelled from the spec: the ParticleEmitter2 implementation is not part
of the excerpt; per section 4.3 an emitter holds a nullable bound target
store and an emission policy, abstracted here by the number of particles a
single Emit call produces. -/
structure ParticleEmitter2 where
  target : Option ParticleSystemData2
  numberPerEmit : ℕ

/-- SetTarget(t): binds the emitter to the target particle store. -/
def ParticleEmitter2.SetTarget (e : ParticleEmitter2)
    (t : ParticleSystemData2) : ParticleEmitter2 :=
  { e with target := some t }

/-- Modelled from the spec: Emit(currentTime, deltaTime) fails with an
Unbound target condition when no target is bound, and otherwise appends the
policy-determined number of particles to the bound store (section 4.3). -/
def ParticleEmitter2.Emit (e : ParticleEmitter2)
    (_currentTime _deltaTime : ℚ) : Except String ParticleEmitter2 :=
  match e.target with
  | none => Except.error "Unbound target"
  | some d => Except.ok { e with target := some (d.AddParticles e.numberPerEmit) }

/-! ## Example objects used by concrete witnesses -/

/-- Example world: a solver constructed with resolution (2, 3), spacing
(1, 1), origin (0, 0) and fresh particle store id 42, in a world where no
emitter is bound to any target yet. -/
def exampleWorld : MPMWorld :=
  ⟨mkMPMSolver2 (2, 3) (1, 1) (0, 0) 42, fun _ => none⟩

/-- Example world after SetParticleEmitter with emitter id 7. -/
def exampleWorld2 : MPMWorld :=
  (setParticleEmitter exampleWorld (some 7)).getD exampleWorld

/-- Example world after a further SetParticleEmitter with emitter id 9. -/
def exampleWorld3 : MPMWorld :=
  (setParticleEmitter exampleWorld2 (some 9)).getD exampleWorld

/-! ## Claim theorems -/

/-- Claim C1: in every grid fluid solver step the five phases run exactly
once each (ComputeViscosity exactly when the viscosity coefficient is
nonzero), strictly in the order ComputeExternalForces, ComputeViscosity,
ComputeAdvection, ComputePressure, ApplyBoundaryCondition; and the MPM step
runs the particle-to-grid scatter before the grid step and the
grid-to-particle gather after it. -/
theorem gridStep_phase_order (mu : ℚ) :
    (gridFluidSolverStepPhases mu).count StepPhase.computeExternalForces = 1 ∧
    (gridFluidSolverStepPhases mu).count StepPhase.computeViscosity =
      (if mu = 0 then 0 else 1) ∧
    (gridFluidSolverStepPhases mu).count StepPhase.computeAdvection = 1 ∧
    (gridFluidSolverStepPhases mu).count StepPhase.computePressure = 1 ∧
    (gridFluidSolverStepPhases mu).count StepPhase.applyBoundaryCondition = 1 ∧
    List.Sublist (gridFluidSolverStepPhases mu)
      [StepPhase.computeExternalForces, StepPhase.computeViscosity,
       StepPhase.computeAdvection, StepPhase.computePressure,
       StepPhase.applyBoundaryCondition] ∧
    mpmSolverStepPhases mu =
      StepPhase.particleToGridScatter ::
        (gridFluidSolverStepPhases mu ++ [StepPhase.gridToParticleGather]) := by
  by_cases h : mu = 0
  · subst h
    decide
  · simp only [gridFluidSolverStepPhases, mpmSolverStepPhases, if_neg h]
    decide

/-- Claim C4: for every in-range coordinate pair (i, j), At(i, j) and
operator()(i, j) access the same element as the linear accessor
At(i + width * j): the structured-to-linear mapping is i + width * j. -/
theorem at2_eq_linear_at1 {α : Type} [Inhabited α] (a : Array2 α) (i j : ℕ)
    (hi : i < a.Width) (hj : j < a.Height) :
    a.At2 i j = a.At1 (i + a.Width * j) ∧
    a.call2 i j = a.At1 (i + a.Width * j) :=
  ⟨rfl, rfl⟩

/-- Witness for C4 at a concrete 2 x 2 integer array and coordinate (1, 1). -/
theorem at2_eq_linear_at1_witness :
    1 < (⟨(2, 2), [10, 11, 12, 13]⟩ : Array2 ℤ).Width ∧
    1 < (⟨(2, 2), [10, 11, 12, 13]⟩ : Array2 ℤ).Height ∧
    ((⟨(2, 2), [10, 11, 12, 13]⟩ : Array2 ℤ).At2 1 1 =
       (⟨(2, 2), [10, 11, 12, 13]⟩ : Array2 ℤ).At1
         (1 + (⟨(2, 2), [10, 11, 12, 13]⟩ : Array2 ℤ).Width * 1) ∧
     (⟨(2, 2), [10, 11, 12, 13]⟩ : Array2 ℤ).call2 1 1 =
       (⟨(2, 2), [10, 11, 12, 13]⟩ : Array2 ℤ).At1
         (1 + (⟨(2, 2), [10, 11, 12, 13]⟩ : Array2 ℤ).Width * 1)) :=
  ⟨by decide, by decide,
   at2_eq_linear_at1 (⟨(2, 2), [10, 11, 12, 13]⟩ : Array2 ℤ) 1 1
     (by decide) (by decide)⟩

/-- Claim C5: for every box b and every box other satisfying the valid-state
invariant, Reset() followed by Merge(other) leaves the box equal to other:
the reset state is an identity element of Merge. -/
theorem reset_merge_identity (b other : BoundingBox2)
    (h1 : other.lowerCorner.1 ≤ other.upperCorner.1)
    (h2 : other.lowerCorner.2 ≤ other.upperCorner.2) :
    (b.Reset).Merge other = other := by
  cases other with
  | mk lo hi =>
    simp [BoundingBox2.Reset, BoundingBox2.Merge, min_eq_right le_top,
      max_eq_right bot_le]

/-- Witness for C5 at a concrete valid box with both corners at the origin. -/
theorem reset_merge_identity_witness :
    (⟨(0, 0), (0, 0)⟩ : BoundingBox2).lowerCorner.1 ≤
      (⟨(0, 0), (0, 0)⟩ : BoundingBox2).upperCorner.1 ∧
    (⟨(0, 0), (0, 0)⟩ : BoundingBox2).lowerCorner.2 ≤
      (⟨(0, 0), (0, 0)⟩ : BoundingBox2).upperCorner.2 ∧
    ((⟨(0, 0), (0, 0)⟩ : BoundingBox2).Reset).Merge ⟨(0, 0), (0, 0)⟩ =
      ⟨(0, 0), (0, 0)⟩ :=
  ⟨le_refl _, le_refl _,
   reset_merge_identity ⟨(0, 0), (0, 0)⟩ ⟨(0, 0), (0, 0)⟩
     (le_refl _) (le_refl _)⟩

/-- Claim C6: after SetParticleEmitter(e) the solver's GetParticleEmitter
returns e, the emitter's bound target is the solver's own particle system
data, and a later SetParticleEmitter(e2) rebinds e2 to the same store. -/
theorem setParticleEmitter_binds (w w' : MPMWorld) (e : ℕ)
    (h : setParticleEmitter w (some e) = some w') :
    getParticleEmitter w'.solver = some e ∧
    w'.emitterTarget e = getParticleSystemData w.solver ∧
    ∀ e2 w'', setParticleEmitter w' (some e2) = some w'' →
      w''.emitterTarget e2 = getParticleSystemData w.solver := by
  simp only [setParticleEmitter, Option.some.injEq] at h
  subst h
  refine ⟨rfl, by simp [getParticleSystemData], ?_⟩
  intro e2 w'' h2
  simp only [setParticleEmitter, Option.some.injEq] at h2
  subst h2
  simp [getParticleSystemData]

/-- Witness for C6 at the concrete example world, binding emitter 7 and then
rebinding emitter 9. -/
theorem setParticleEmitter_binds_witness :
    getParticleEmitter exampleWorld2.solver = some 7 ∧
    exampleWorld2.emitterTarget 7 = getParticleSystemData exampleWorld.solver ∧
    exampleWorld3.emitterTarget 9 = getParticleSystemData exampleWorld.solver := by
  have h1 : setParticleEmitter exampleWorld (some 7) = some exampleWorld2 := rfl
  have h2 : setParticleEmitter exampleWorld2 (some 9) = some exampleWorld3 := rfl
  obtain ⟨a, b, c⟩ := setParticleEmitter_binds exampleWorld exampleWorld2 7 h1
  exact ⟨a, b, c 9 exampleWorld3 h2⟩

/-- Claim C8: Builder::Build() and Builder::MakeShared() construct solvers
with identical configuration, built from the same m_resolution,
GetGridSpacing() and m_gridOrigin. -/
theorem builder_build_makeShared_equiv (b : MPMSolver2Builder)
    (freshStore : ℕ) :
    b.MakeShared freshStore = b.Build freshStore ∧
    (b.Build freshStore).resolution = b.m_resolution ∧
    (b.Build freshStore).gridSpacing = b.GetGridSpacing ∧
    (b.Build freshStore).gridOrigin = b.m_gridOrigin :=
  ⟨rfl, rfl, rfl, rfl⟩

/-- Claim C9: both constructors allocate a fresh particle system data, so
GetParticleSystemData() is non-null from construction onward; the default
constructor delegates with resolution (1, 1), spacing (1, 1), origin (0, 0);
and SetParticleEmitter, the only mutating public operation in the excerpt,
never reassigns or clears it. -/
theorem particleSystemData_nonnull (resolution : ℕ × ℕ)
    (gridSpacing gridOrigin : ℚ × ℚ) (freshStore : ℕ) :
    (getParticleSystemData
      (mkMPMSolver2 resolution gridSpacing gridOrigin freshStore)).isSome ∧
    mkMPMSolver2Default freshStore =
      mkMPMSolver2 (1, 1) (1, 1) (0, 0) freshStore ∧
    ∀ w w' e, setParticleEmitter w (some e) = some w' →
      getParticleSystemData w'.solver = getParticleSystemData w.solver := by
  refine ⟨rfl, rfl, ?_⟩
  intro w w' e h
  simp only [setParticleEmitter, Option.some.injEq] at h
  subst h
  rfl

/-- Witness for C9 at a concrete construction and a concrete emitter
binding. -/
theorem particleSystemData_nonnull_witness :
    (getParticleSystemData (mkMPMSolver2 (2, 3) (1, 1) (0, 0) 42)).isSome ∧
    getParticleSystemData exampleWorld2.solver =
      getParticleSystemData exampleWorld.solver :=
  ⟨(particleSystemData_nonnull (2, 3) (1, 1) (0, 0) 42).1,
   (particleSystemData_nonnull (2, 3) (1, 1) (0, 0) 42).2.2
     exampleWorld exampleWorld2 7 rfl⟩

/-- Claim C10: SetParticleEmitter dereferences its argument unconditionally,
so a null argument has no defined result while every non-null argument does:
the call is well-defined only for non-null emitter pointers. -/
theorem setParticleEmitter_null_precondition (w : MPMWorld) :
    setParticleEmitter w none = none ∧
    ∀ e : ℕ, (setParticleEmitter w (some e)).isSome :=
  ⟨rfl, fun _ => rfl⟩

/-- Claim C7: Emit on an unbound emitter fails with the Unbound target
condition; after SetTarget the same call appends exactly the emitted number
of particles, and every attribute array length equals the pre-emission
count plus that number. -/
theorem emit_unbound_fails_bound_appends (e : ParticleEmitter2)
    (d : ParticleSystemData2) (t dt : ℚ) (hun : e.target = none) :
    e.Emit t dt = Except.error "Unbound target" ∧
    ∃ e2, (e.SetTarget d).Emit t dt = Except.ok e2 ∧
      ∃ d2, e2.target = some d2 ∧
        d2.NumberOfParticles = d.NumberOfParticles + e.numberPerEmit ∧
        d2.positions.length = d.positions.length + e.numberPerEmit ∧
        d2.velocities.length = d.velocities.length + e.numberPerEmit ∧
        d2.extraScalarData.length = d.extraScalarData.length ∧
        ∀ p, p ∈ d2.extraScalarData → ∃ q, q ∈ d.extraScalarData ∧
          q.1 = p.1 ∧ p.2.length = q.2.length + e.numberPerEmit := by
  constructor
  · simp [ParticleEmitter2.Emit, hun]
  · refine ⟨_, rfl, _, rfl, ?_, ?_, ?_, ?_, ?_⟩
    · simp [ParticleSystemData2.AddParticles,
        ParticleSystemData2.NumberOfParticles, ParticleEmitter2.SetTarget]
    · simp [ParticleSystemData2.AddParticles, ParticleEmitter2.SetTarget]
    · simp [ParticleSystemData2.AddParticles, ParticleEmitter2.SetTarget]
    · simp [ParticleSystemData2.AddParticles, ParticleEmitter2.SetTarget]
    · intro p hp
      simp only [ParticleSystemData2.AddParticles, List.mem_map] at hp
      obtain ⟨q, hq, rfl⟩ := hp
      exact ⟨q, hq, rfl, by simp [ParticleEmitter2.SetTarget]⟩

/-- Witness for C7: an emitter with policy count 100 and an empty store with
one registered extra attribute. -/
theorem emit_unbound_fails_bound_appends_witness :
    ParticleEmitter2.Emit ⟨none, 100⟩ 0 0 = Except.error "Unbound target" ∧
    ∃ e2, ParticleEmitter2.Emit
        (ParticleEmitter2.SetTarget ⟨none, 100⟩ ⟨[], [], [("mass", [])]⟩) 0 0 =
        Except.ok e2 ∧
      ∃ d2, e2.target = some d2 ∧
        d2.NumberOfParticles = 0 + 100 ∧
        d2.positions.length = 0 + 100 ∧
        d2.velocities.length = 0 + 100 ∧
        d2.extraScalarData.length = 1 ∧
        ∀ p, p ∈ d2.extraScalarData →
          ∃ q, q ∈ [("mass", ([] : List ℚ))] ∧ q.1 = p.1 ∧
            p.2.length = q.2.length + 100 :=
  emit_unbound_fails_bound_appends ⟨none, 100⟩ ⟨[], [], [("mass", [])]⟩ 0 0 rfl

/-! ## Iteration-order lemmas -/

/-- Length of the canonical index sequence: width * height entries. -/
theorem length_forEachIndexList (w h : ℕ) :
    (forEachIndexList w h).length = w * h := by
  induction h with
  | zero => simp [forEachIndexList]
  | succ n ih => simp [forEachIndexList, ijRow, ih, Nat.mul_succ]

/-- Membership in the canonical index sequence is exactly in-range. -/
theorem mem_forEachIndexList (w h i j : ℕ) :
    (i, j) ∈ forEachIndexList w h ↔ i < w ∧ j < h := by
  induction h with
  | zero => simp [forEachIndexList]
  | succ n ih =>
    simp only [forEachIndexList, ijRow, List.mem_append, List.mem_map,
      List.mem_range, Prod.mk.injEq, ih]
    constructor
    · rintro (⟨h1, h2⟩ | ⟨m, hm, rfl, rfl⟩)
      · exact ⟨h1, Nat.lt_succ_of_lt h2⟩
      · exact ⟨hm, Nat.lt_succ_self n⟩
    · rintro ⟨h1, h2⟩
      rcases Nat.lt_succ_iff_lt_or_eq.1 h2 with h3 | rfl
      · exact Or.inl ⟨h1, h3⟩
      · exact Or.inr ⟨i, h1, rfl, rfl⟩

/-- Occurrence count of an index pair in one row of the canonical
iteration. -/
theorem count_ijRow (w j' i j : ℕ) :
    (ijRow w j').count (i, j) = if i < w ∧ j = j' then 1 else 0 := by
  induction w with
  | zero => simp [ijRow]
  | succ n ih =>
    rw [ijRow, List.range_succ, List.map_append, List.count_append]
    have hrow : (List.range n).map (fun m => (m, j')) = ijRow n j' := rfl
    rw [hrow, ih]
    simp only [List.map_cons, List.map_nil, List.count_singleton, beq_iff_eq,
      Prod.mk.injEq]
    split_ifs <;> omega

/-- Every in-range index pair occurs exactly once in the canonical
sequence, and out-of-range pairs never occur. -/
theorem count_forEachIndexList (w h i j : ℕ) :
    (forEachIndexList w h).count (i, j) = if i < w ∧ j < h then 1 else 0 := by
  induction h with
  | zero => simp [forEachIndexList]
  | succ n ih =>
    simp only [forEachIndexList, List.count_append, ih, count_ijRow]
    split_ifs <;> omega

/-- The entry at linear position i + w * j of the canonical sequence is the
index pair (i, j). -/
theorem getD_forEachIndexList (w h i j : ℕ) (hi : i < w) (hj : j < h) :
    (forEachIndexList w h).getD (i + w * j) (0, 0) = (i, j) := by
  induction h with
  | zero => exact absurd hj (Nat.not_lt_zero j)
  | succ n ih =>
    rcases Nat.lt_succ_iff_lt_or_eq.1 hj with hj2 | rfl
    · have hk : i + w * j < (forEachIndexList w n).length := by
        rw [length_forEachIndexList]
        have h2 : w * (j + 1) = w * j + w := by ring
        have h3 : w * (j + 1) ≤ w * n := Nat.mul_le_mul_left w hj2
        omega
      simp only [forEachIndexList]
      rw [List.getD_append _ _ _ _ hk]
      exact ih hj2
    · have hge : (forEachIndexList w j).length ≤ i + w * j := by
        rw [length_forEachIndexList]
        omega
      simp only [forEachIndexList]
      rw [List.getD_append_right _ _ _ _ hge, length_forEachIndexList]
      have hsub : i + w * j - w * j = i := by omega
      rw [hsub]
      have hlt : i < (ijRow w j).length := by simp [ijRow, hi]
      rw [List.getD_eq_getElem _ _ hlt]
      simp [ijRow]

/-- Claim C3 (amended): both ForEachIndex and ParallelForEachIndex invoke
the callback exactly once per in-range coordinate (i, j); ForEachIndex does
so in the canonical linear order (the invocation at position i + width * j
is at (i, j)); ParallelForEachIndex makes the same set of invocations but
with no ordering guarantee: the admissible invocation sequences are the
permutations of the canonical one. -/
theorem forEachIndex_once_canonical {α : Type} (a : Array2 α) (i j : ℕ) :
    (a.ForEachIndexTrace.count (i, j) =
      if i < a.Width ∧ j < a.Height then 1 else 0) ∧
    (i < a.Width → j < a.Height →
      a.ForEachIndexTrace.getD (i + a.Width * j) (0, 0) = (i, j)) ∧
    (∀ l, a.ParallelForEachIndexAdmissible l →
      l.count (i, j) = a.ForEachIndexTrace.count (i, j)) ∧
    a.ParallelForEachIndexAdmissible a.ForEachIndexTrace := by
  refine ⟨count_forEachIndexList _ _ i j,
    fun hi hj => getD_forEachIndexList _ _ i j hi hj, ?_, List.Perm.refl _⟩
  intro l hl
  rw [List.count_eq_countP, List.count_eq_countP]
  exact List.Perm.countP_eq _ hl

/-- Witness for the amended C3 at a concrete 2 x 2 integer array and
coordinate (1, 1). -/
theorem forEachIndex_once_canonical_witness :
    ((⟨(2, 2), [0, 0, 0, 0]⟩ : Array2 ℤ).ForEachIndexTrace.count (1, 1) =
      if 1 < (⟨(2, 2), [0, 0, 0, 0]⟩ : Array2 ℤ).Width ∧
         1 < (⟨(2, 2), [0, 0, 0, 0]⟩ : Array2 ℤ).Height then 1 else 0) ∧
    (⟨(2, 2), [0, 0, 0, 0]⟩ : Array2 ℤ).ForEachIndexTrace.getD
      (1 + (⟨(2, 2), [0, 0, 0, 0]⟩ : Array2 ℤ).Width * 1) (0, 0) = (1, 1) :=
  ⟨(forEachIndex_once_canonical (⟨(2, 2), [0, 0, 0, 0]⟩ : Array2 ℤ) 1 1).1,
   (forEachIndex_once_canonical (⟨(2, 2), [0, 0, 0, 0]⟩ : Array2 ℤ) 1 1).2.1
     (by decide) (by decide)⟩

/-- Counterexample to C3 as stated: on a 2 x 1 array the reversed sequence
is an admissible ParallelForEachIndex invocation order, yet it differs from
the canonical linear order, so ParallelForEachIndex does not guarantee the
canonical order. -/
theorem parallelForEachIndex_not_canonical :
    (⟨(2, 1), [0, 0]⟩ : Array2 ℤ).ParallelForEachIndexAdmissible
      [(1, 0), (0, 0)] ∧
    [(1, 0), (0, 0)] ≠ (⟨(2, 1), [0, 0]⟩ : Array2 ℤ).ForEachIndexTrace := by
  constructor
  · show List.Perm _ _
    decide
  · decide

/-! ## Resize lemmas -/

/-- Claim C2 (amended): after Resize(s, v) the size equals s and the backing
store has s.1 * s.2 elements; a new element (one outside the overlap with
the old extents) equals the fill value, while an element inside the overlap
keeps its previous value. -/
theorem resize_characterization {α : Type} [Inhabited α] (a : Array2 α)
    (s : ℕ × ℕ) (v : α) (i j : ℕ) (hi : i < s.1) (hj : j < s.2) :
    (a.resize s v).m_size = s ∧
    (a.resize s v).m_data.length = s.1 * s.2 ∧
    (a.resize s v).At2 i j =
      if i < a.Width ∧ j < a.Height then a.At2 i j else v := by
  refine ⟨rfl, by simp [Array2.resize], ?_⟩
  have hw : 0 < s.1 := Nat.lt_of_le_of_lt (Nat.zero_le i) hi
  have hk : i + s.1 * j < s.1 * s.2 := by
    have h2 : s.1 * (j + 1) = s.1 * j + s.1 := by ring
    have h3 : s.1 * (j + 1) ≤ s.1 * s.2 := Nat.mul_le_mul_left s.1 hj
    omega
  have hmod : (i + s.1 * j) % s.1 = i := by
    rw [Nat.add_mul_mod_self_left, Nat.mod_eq_of_lt hi]
  have hdiv : (i + s.1 * j) / s.1 = j := by
    rw [Nat.add_mul_div_left _ _ hw, Nat.div_eq_of_lt hi]
    omega
  have key : (a.resize s v).At2 i j =
      (if i < min s.1 a.m_size.1 ∧ j < min s.2 a.m_size.2 then a.At2 i j
       else v) := by
    have hlen : i + s.1 * j <
        ((List.range (s.1 * s.2)).map fun k =>
          if k % s.1 < min s.1 a.m_size.1 ∧ k / s.1 < min s.2 a.m_size.2 then
            a.At2 (k % s.1) (k / s.1)
          else v).length := by
      simpa using hk
    show ((List.range (s.1 * s.2)).map fun k =>
        if k % s.1 < min s.1 a.m_size.1 ∧ k / s.1 < min s.2 a.m_size.2 then
          a.At2 (k % s.1) (k / s.1)
        else v).getD (i + s.1 * j) default = _
    rw [List.getD_eq_getElem _ _ hlen]
    simp only [List.getElem_map, List.getElem_range, hmod, hdiv]
  rw [key]
  simp [lt_min_iff, Array2.Width, Array2.Height, hi, hj]

/-- Witness for the amended C2: resizing a 1 x 1 array to 2 x 1 with fill
value 7, evaluated at the new coordinate (1, 0). -/
theorem resize_characterization_witness :
    1 < 2 ∧ 0 < 1 ∧
    (((⟨(1, 1), [5]⟩ : Array2 ℤ).resize (2, 1) 7).m_size = (2, 1) ∧
     ((⟨(1, 1), [5]⟩ : Array2 ℤ).resize (2, 1) 7).m_data.length = 2 * 1 ∧
     ((⟨(1, 1), [5]⟩ : Array2 ℤ).resize (2, 1) 7).At2 1 0 =
       if 1 < (⟨(1, 1), [5]⟩ : Array2 ℤ).Width ∧
          0 < (⟨(1, 1), [5]⟩ : Array2 ℤ).Height
       then (⟨(1, 1), [5]⟩ : Array2 ℤ).At2 1 0 else 7) :=
  ⟨by decide, by decide,
   resize_characterization (⟨(1, 1), [5]⟩ : Array2 ℤ) (2, 1) 7 1 0
     (by decide) (by decide)⟩

/-- Counterexample to C2 as stated: resizing the 1 x 1 array holding 5 to
2 x 1 with fill value 7 does not re-apply the fill value to the previously
existing element: position (0, 0) still holds 5, while only the new
position (1, 0) holds 7. -/
theorem resize_keeps_old_elements :
    ((⟨(1, 1), [5]⟩ : Array2 ℤ).resize (2, 1) 7).m_size = (2, 1) ∧
    ((⟨(1, 1), [5]⟩ : Array2 ℤ).resize (2, 1) 7).At2 0 0 = 5 ∧
    ((⟨(1, 1), [5]⟩ : Array2 ℤ).resize (2, 1) 7).At2 1 0 = 7 ∧
    (5 : ℤ) ≠ 7 := by
  decide

end CubbyFlow
